import Mathlib

/-!
Verification development for the kbzhu-tracker frontend
(`src/frontend/app.js`), a browser-side controller for selecting a food
photo, previewing it, and displaying nutrition estimates from a
placeholder analysis.

The script is shallowly embedded: the DOM fields the script reads and
writes become a `UIState` record, event handlers become functions from
`UIState` to `UIState` paired with the list of blocking `alert` messages
they emit, and the two asynchronous suspension points (the `FileReader`
decode and the `await simulateApiCall()` inside `analyzePhoto`) are split
into explicit start/continuation functions so that interleavings with
other handlers can be stated.  `Math.random()` is modelled as a rational
parameter `r` with `0 ≤ r < 1`.
-/

/-- A browser `File` object as far as the script inspects it: only its
name and its declared MIME content type (`file.type`) matter. -/
structure JsFile where
  name : String
  type : String
  deriving DecidableEq, Repr

/-- The mutable state the script touches: the module-level `selectedFile`
variable plus every DOM property `app.js` reads or writes (input value,
preview image `src`, the `hidden` flags of the preview / upload / result /
loader surfaces, the `disabled` flag of the analyze button, and the text
content of the six result fields).  Pure styling writes (the drag-over
border color) are not tracked, as no observable behaviour depends on
them. -/
structure UIState where
  selectedFile : Option JsFile
  photoInputValue : String
  previewImageSrc : String
  previewHidden : Bool
  uploadHidden : Bool
  analyzeDisabled : Bool
  resultHidden : Bool
  loaderHidden : Bool
  dishNameText : String
  caloriesText : String
  proteinsText : String
  fatsText : String
  carbsText : String
  additionalInfoText : String
  deriving DecidableEq, Repr

/-- The page's starting state: nothing selected, upload surface visible,
preview / result / loader hidden, analyze button disabled, result fields
empty.  Used as a concrete state in witnesses. -/
def initialState : UIState :=
  { selectedFile := none
    photoInputValue := ""
    previewImageSrc := ""
    previewHidden := true
    uploadHidden := false
    analyzeDisabled := true
    resultHidden := true
    loaderHidden := true
    dishNameText := ""
    caloriesText := ""
    proteinsText := ""
    fatsText := ""
    carbsText := ""
    additionalInfoText := "" }

/-- JS `s.startsWith(pre)`: `pre` is a prefix of `s` character by
character (equivalent to Lean's `String.startsWith`, stated over the
character list so that it evaluates by `decide`). -/
def jsStartsWith (s pre : String) : Bool :=
  pre.data.isPrefixOf s.data

/-- The blocking message `processFile` shows for a non-image file. -/
def invalidTypeAlert : String := "Пожалуйста, выберите изображение"

/-- The blocking message the `catch` branch of `analyzePhoto` shows. -/
def analysisErrorAlert : String := "Произошла ошибка при анализе изображения"

/-- `processFile(file)`: reject (alert, early return) unless `file.type`
starts with `"image/"`; otherwise store the file in `selectedFile` and
start the asynchronous `FileReader` decode.  The decode's `onload`
continuation is modelled separately as `readerOnload`. -/
def processFile (file : JsFile) (s : UIState) : UIState × List String :=
  if ¬ (jsStartsWith file.type "image/") then
    (s, [invalidTypeAlert])
  else
    ({ s with selectedFile := some file }, [])

/-- `showPreview()`: reveal the preview surface, hide the upload surface,
enable the analyze button, hide any previous result. -/
def showPreview (s : UIState) : UIState :=
  { s with previewHidden := false
           uploadHidden := true
           analyzeDisabled := false
           resultHidden := true }

/-- The `reader.onload` continuation inside `processFile`: set the preview
image `src` to the decoded data URL, then `showPreview()`. -/
def readerOnload (dataUrl : String) (s : UIState) : UIState :=
  showPreview { s with previewImageSrc := dataUrl }

/-- `handleFileSelect(event)`: take `event.target.files[0]` (possibly
absent) and forward a present file to `processFile`. -/
def handleFileSelect (file? : Option JsFile) (s : UIState) : UIState × List String :=
  match file? with
  | some file => processFile file s
  | none => (s, [])

/-- `handleDrop(event)`: take `event.dataTransfer.files[0]` and forward it
to `processFile` only when it is present AND its type starts with
`"image/"`; a dropped non-image file is dropped silently (no alert). -/
def handleDrop (file? : Option JsFile) (s : UIState) : UIState × List String :=
  match file? with
  | some file =>
      if jsStartsWith file.type "image/" then processFile file s else (s, [])
  | none => (s, [])

/-- `removePhoto()`: clear the selection and every related surface,
unconditionally. -/
def removePhoto (s : UIState) : UIState :=
  { s with selectedFile := none
           photoInputValue := ""
           previewImageSrc := ""
           previewHidden := true
           uploadHidden := false
           analyzeDisabled := true
           resultHidden := true }

/-- The fixed delay (milliseconds) of `simulateApiCall`:
`setTimeout(resolve, 1500)`. -/
def simulateApiCallDelayMs : Nat := 1500

/-- `simulateApiCall()`: a promise that always resolves (after the fixed
delay) and never rejects. -/
def simulateApiCall : Except String Unit := Except.ok ()

/-- The analysis result object of the placeholder variant.  Fields are
`Option` because `displayResults` may be handed an object lacking some of
them; the three canned results carry all fields. -/
structure AnalysisResult where
  name : Option String
  calories : Option Nat
  proteins : Option Nat
  fats : Option Nat
  carbs : Option Nat
  info : Option String
  deriving DecidableEq, Repr

/-- First entry of the fixed `mockResults` array. -/
def mockResult0 : AnalysisResult :=
  { name := some "Греческий салат"
    calories := some 180
    proteins := some 5
    fats := some 14
    carbs := some 9
    info := some "Примерная порция: 250г" }

/-- Second entry of the fixed `mockResults` array. -/
def mockResult1 : AnalysisResult :=
  { name := some "Куриная грудка с рисом"
    calories := some 420
    proteins := some 35
    fats := some 8
    carbs := some 52
    info := some "Примерная порция: 350г" }

/-- Third entry of the fixed `mockResults` array. -/
def mockResult2 : AnalysisResult :=
  { name := some "Овсяная каша с фруктами"
    calories := some 280
    proteins := some 8
    fats := some 6
    carbs := some 48
    info := some "Примерная порция: 300г" }

/-- The fixed array `mockResults` inside `getMockAnalysisResult`. -/
def mockResults : List AnalysisResult := [mockResult0, mockResult1, mockResult2]

/-- `Math.floor(Math.random() * mockResults.length)` with `Math.random()`
modelled as a rational `r` (the browser guarantees `0 ≤ r < 1`). -/
def randomIndex (r : ℚ) : Nat :=
  (Int.floor (r * (mockResults.length : ℚ))).toNat

/-- `getMockAnalysisResult()`: return `mockResults[randomIndex]`.  A JS
out-of-bounds read would yield `undefined` and the subsequent field access
in `displayResults` would throw, so an out-of-range index is modelled as
the thrown-error case. -/
def getMockAnalysisResult (r : ℚ) : Except String AnalysisResult :=
  match mockResults.get? (randomIndex r) with
  | some res => Except.ok res
  | none => Except.error "TypeError: data is undefined"

/-- Assigning a JS value to `Node.textContent` (a nullable DOMString): an
`undefined` (absent) field converts to `null`, which the setter treats as
the empty string; a present string is used as is. -/
def textOfOptStr : Option String → String
  | some v => v
  | none => ""

/-- Assigning a JS number to `Node.textContent`: a present number is
stringified; an `undefined` (absent) field converts to `null`, i.e. the
empty string. -/
def textOfOptNat : Option Nat → String
  | some v => toString v
  | none => ""

/-- `displayResults(data)`: write each field of `data` to its result cell
via `textContent` (no fallback of any kind in the source), then reveal the
result surface. -/
def displayResults (data : AnalysisResult) (s : UIState) : UIState :=
  { s with dishNameText := textOfOptStr data.name
           caloriesText := textOfOptNat data.calories
           proteinsText := textOfOptNat data.proteins
           fatsText := textOfOptNat data.fats
           carbsText := textOfOptNat data.carbs
           additionalInfoText := textOfOptStr data.info
           resultHidden := false }

/-- The `finally` block of `analyzePhoto`: hide the loader, re-enable the
analyze button.  Runs on both the success and the failure path. -/
def analyzeFinally (s : UIState) : UIState :=
  { s with loaderHidden := true
           analyzeDisabled := false }

/-- The synchronous prefix of `analyzePhoto` up to the `await`: return
unchanged (second component `false`) when no file is selected, otherwise
show the loader, disable the button, hide any previous result (second
component `true`: an analysis is now in flight). -/
def analyzePhotoStart (s : UIState) : UIState × Bool :=
  match s.selectedFile with
  | none => (s, false)
  | some _ =>
      ({ s with loaderHidden := false
                analyzeDisabled := true
                resultHidden := true }, true)

/-- The `try` body of `analyzePhoto` after the suspension:
`await simulateApiCall(); displayResults(getMockAnalysisResult())`. -/
def analyzeTryBody (r : ℚ) (s : UIState) : Except String UIState := do
  simulateApiCall
  let mockData ← getMockAnalysisResult r
  pure (displayResults mockData s)

/-- The continuation of `analyzePhoto` once the simulated delay resolves:
run the rest of the `try` body; on a thrown error run the `catch` branch
(alert); in both cases run the `finally` block. -/
def analyzePhotoComplete (r : ℚ) (s : UIState) : UIState × List String :=
  match analyzeTryBody r s with
  | Except.ok s2 => (analyzeFinally s2, [])
  | Except.error _ => (analyzeFinally s, [analysisErrorAlert])

/-- `analyzePhoto()` run to completion with no interleaved handler between
the suspension and the continuation. -/
def analyzePhoto (r : ℚ) (s : UIState) : UIState × List String :=
  match s.selectedFile with
  | none => (s, [])
  | some _ =>
      analyzePhotoComplete r
        { s with loaderHidden := false
                 analyzeDisabled := true
                 resultHidden := true }

/-!
The network variant (spec §4.3, §6) is not present under `src/`:
`src/frontend/app.js` only carries a TODO stub `sendToApi` that
unconditionally throws, with the real submission left to a separate
variant of the script.  Its request construction and response handling
are therefore modelled from the spec's words.
-/

/-- Modelled from the spec: the network-variant result payload (spec §6)
nested under the response's `data` — fields `product_name`, `calories`,
`proteins`, `fats`, `carbs`, optional `weight`, `confidence`, `notes`. -/
structure NetworkResult where
  product_name : Option String
  calories : Option Nat
  proteins : Option Nat
  fats : Option Nat
  carbs : Option Nat
  weight : Option String
  confidence : Option String
  notes : Option String
  deriving DecidableEq, Repr

/-- Modelled from the spec: an HTTP request as the missing network-variant
`sendToApi` builds it — method, URL, and the multipart form parts, each a
field name paired with the file supplying the bytes and the declared
content type. -/
structure HttpRequest where
  method : String
  url : String
  formParts : List (String × JsFile)
  deriving DecidableEq, Repr

/-- Modelled from the spec: the analysis endpoint's JSON response — the
HTTP-level success status, the body's own `success` indicator, the nested
`data` payload, and the optional `message` / `error` texts. -/
structure ApiResponse where
  httpOk : Bool
  success : Bool
  data : Option NetworkResult
  message : Option String
  error : Option String
  deriving DecidableEq, Repr

/-- Modelled from the spec: the generic fallback failure text used when
the response carries no server-provided message. -/
def genericAnalysisFailure : String := "Не удалось проанализировать изображение"

/-- Modelled from the spec: the request the missing network-variant
`sendToApi` issues for a selected file — a single POST to
`{base-url}/analyze` whose multipart body has one part named `image`
carrying the file. -/
def sendToApiRequest (baseUrl : String) (file : JsFile) : HttpRequest :=
  { method := "POST"
    url := baseUrl ++ "/analyze"
    formParts := [("image", file)] }

/-- Modelled from the spec: the response handling of the missing
network-variant `sendToApi` — on an HTTP success status with a true
`success` indicator return the nested payload; on `success = false` fail
with the server message or the generic fallback; on a non-success HTTP
status fail with the body's `error` / `message` text when present. -/
def sendToApiHandleResponse (resp : ApiResponse) : Except String NetworkResult :=
  if resp.httpOk then
    if resp.success then
      match resp.data with
      | some d => Except.ok d
      | none => Except.error genericAnalysisFailure
    else Except.error (resp.message.getD genericAnalysisFailure)
  else Except.error ((resp.error.orElse fun _ => resp.message).getD genericAnalysisFailure)

/-!
Helper lemmas shared by the claim theorems.
-/

/-- With a genuine `Math.random()` value (`0 ≤ r < 1`) the computed index
stays within the bounds of `mockResults`. -/
theorem randomIndex_lt_length (r : ℚ) (h0 : 0 ≤ r) (h1 : r < 1) :
    randomIndex r < mockResults.length := by
  have hpos : (0 : ℚ) < (mockResults.length : ℚ) := by
    norm_num [mockResults]
  have h3 : r * (mockResults.length : ℚ) < (mockResults.length : ℚ) := by
    nlinarith
  have h4 : Int.floor (r * (mockResults.length : ℚ)) < (mockResults.length : ℤ) := by
    rw [Int.floor_lt]
    exact_mod_cast h3
  have hlen : mockResults.length = 3 := rfl
  unfold randomIndex
  omega

/-- With a genuine random value, `getMockAnalysisResult` returns one of
the canned results (the array read is in bounds). -/
theorem getMockAnalysisResult_ok (r : ℚ) (h0 : 0 ≤ r) (h1 : r < 1) :
    ∃ res, getMockAnalysisResult r = Except.ok res ∧ res ∈ mockResults := by
  have h := randomIndex_lt_length r h0 h1
  refine ⟨mockResults.get ⟨randomIndex r, h⟩, ?_, List.get_mem _ _ _⟩
  unfold getMockAnalysisResult
  rw [List.get?_eq_get h]

/-- With a genuine random value, the whole `try` body of `analyzePhoto`
succeeds and amounts to rendering one of the canned results. -/
theorem analyzeTryBody_ok (r : ℚ) (s : UIState) (h0 : 0 ≤ r) (h1 : r < 1) :
    ∃ res, res ∈ mockResults ∧ analyzeTryBody r s = Except.ok (displayResults res s) := by
  obtain ⟨res, hres, hmem⟩ := getMockAnalysisResult_ok r h0 h1
  refine ⟨res, hmem, ?_⟩
  unfold analyzeTryBody
  rw [hres]
  rfl

/-- Whatever the `try` body does, the continuation of `analyzePhoto` ends
with the `finally` block applied: loader hidden, button re-enabled. -/
theorem analyzePhotoComplete_cleanup (r : ℚ) (s : UIState) :
    (analyzePhotoComplete r s).1.loaderHidden = true ∧
    (analyzePhotoComplete r s).1.analyzeDisabled = false := by
  unfold analyzePhotoComplete
  cases analyzeTryBody r s <;> simp [analyzeFinally]

/-- `Math.random() = 0` selects index 0. -/
theorem randomIndex_zero : randomIndex 0 = 0 := by
  norm_num [randomIndex]

/-- At `Math.random() = 0` the mock result is the first canned entry. -/
theorem getMockAnalysisResult_zero : getMockAnalysisResult 0 = Except.ok mockResult0 := by
  unfold getMockAnalysisResult
  rw [randomIndex_zero]
  rfl

/-- At `Math.random() = 0` the `try` body renders the first canned entry. -/
theorem analyzeTryBody_zero (s : UIState) :
    analyzeTryBody 0 s = Except.ok (displayResults mockResult0 s) := by
  unfold analyzeTryBody
  rw [getMockAnalysisResult_zero]
  rfl

/-- At `Math.random() = 0` the continuation of `analyzePhoto` renders the
first canned entry and runs the `finally` block, with no alert. -/
theorem analyzePhotoComplete_zero (s : UIState) :
    analyzePhotoComplete 0 s = (analyzeFinally (displayResults mockResult0 s), []) := by
  unfold analyzePhotoComplete
  rw [analyzeTryBody_zero]

/-- A concrete non-image file used in closed statements. -/
def pdfFile : JsFile := { name := "report.pdf", type := "application/pdf" }

/-- A concrete image file used in closed statements. -/
def pngFile : JsFile := { name := "dinner.png", type := "image/png" }

/-- A concrete state with a selection in place, used in closed
statements. -/
def selectedState : UIState :=
  { initialState with selectedFile := some pngFile }

/-!
Claim theorems.
-/

/-- C1: counterexample — a file of declared type `application/pdf`
dropped on the upload surface is filtered out silently by `handleDrop`:
no alert is emitted and nothing changes, refuting the claim that a
non-image selection is always rejected WITH a user-facing (blocking)
message on the drag-and-drop path as well. -/
theorem c1_drop_silent_counterexample :
    handleDrop (some pdfFile) initialState = (initialState, []) := by
  decide

/-- C1 (amended): a file whose declared content type does not start with
"image/" is always rejected with no state change — no preview, stored
selection and all UI flags untouched; the file-picker path shows the
blocking message, while the drag-and-drop path rejects silently with no
message. -/
theorem c1_invalid_type_rejected (s : UIState) (f : JsFile)
    (h : jsStartsWith f.type "image/" = false) :
    handleFileSelect (some f) s = (s, [invalidTypeAlert]) ∧
    handleDrop (some f) s = (s, []) := by
  constructor
  · simp [handleFileSelect, processFile, h]
  · simp [handleDrop, h]

/-- C1 witness: the amended rejection at a concrete PDF file and the
initial state. -/
theorem c1_invalid_type_rejected_witness :
    jsStartsWith pdfFile.type "image/" = false ∧
    (handleFileSelect (some pdfFile) initialState = (initialState, [invalidTypeAlert]) ∧
     handleDrop (some pdfFile) initialState = (initialState, [])) :=
  ⟨by decide, c1_invalid_type_rejected initialState pdfFile (by decide)⟩

/-- C2: every analysis attempt that actually starts (a selection exists)
ends — on the success path and on the failure path alike, via the
`finally` block — with the loader hidden and the analyze button
re-enabled. -/
theorem c2_cleanup_after_attempt (s : UIState) (f : JsFile) (r : ℚ)
    (h : s.selectedFile = some f) :
    (analyzePhoto r s).1.loaderHidden = true ∧
    (analyzePhoto r s).1.analyzeDisabled = false := by
  simp only [analyzePhoto, h]
  exact analyzePhotoComplete_cleanup r _

/-- C2 witness: the cleanup at a concrete selected state and
`Math.random() = 0`. -/
theorem c2_cleanup_after_attempt_witness :
    selectedState.selectedFile = some pngFile ∧
    ((analyzePhoto 0 selectedState).1.loaderHidden = true ∧
     (analyzePhoto 0 selectedState).1.analyzeDisabled = false) :=
  ⟨rfl, c2_cleanup_after_attempt selectedState pngFile 0 rfl⟩

/-- C3: from any state whatsoever, `removePhoto` returns the controller
to NoSelection — selection null, input value cleared, preview source
cleared, preview and result surfaces hidden, upload surface visible,
analyze button disabled. -/
theorem c3_remove_returns_to_no_selection (s : UIState) :
    (removePhoto s).selectedFile = none ∧
    (removePhoto s).photoInputValue = "" ∧
    (removePhoto s).previewImageSrc = "" ∧
    (removePhoto s).previewHidden = true ∧
    (removePhoto s).resultHidden = true ∧
    (removePhoto s).uploadHidden = false ∧
    (removePhoto s).analyzeDisabled = true := by
  simp [removePhoto]

/-- C4: counterexample — start an analysis on a selected state, remove
the photo while the simulated call is in flight, then let the pending
continuation resolve (`Math.random() = 0`): immediately after removal the
result surface is hidden and the selection is null, yet once the
continuation runs the result surface is visible while the selection is
still null and no new selection was ever made — refuting the claim that
after the reset the result surface cannot become visible until a new
selection's analysis completes. -/
theorem c4_stale_result_counterexample :
    (removePhoto (analyzePhotoStart selectedState).1).resultHidden = true ∧
    (removePhoto (analyzePhotoStart selectedState).1).selectedFile = none ∧
    (analyzePhotoComplete 0 (removePhoto (analyzePhotoStart selectedState).1)).1.resultHidden
      = false ∧
    (analyzePhotoComplete 0 (removePhoto (analyzePhotoStart selectedState).1)).1.selectedFile
      = none := by
  rw [analyzePhotoComplete_zero]
  decide

/-- C4 (amended): removal during an in-flight analysis does hide the
result surface at reset time, but the pending continuation still renders
its mock result: for every selected state and genuine random value, after
the continuation resolves the result surface is visible even though the
selection is still null. -/
theorem c4_removal_during_flight (s : UIState) (f : JsFile) (r : ℚ)
    (hf : s.selectedFile = some f) (h0 : 0 ≤ r) (h1 : r < 1) :
    (analyzePhotoStart s).2 = true ∧
    (removePhoto (analyzePhotoStart s).1).resultHidden = true ∧
    (analyzePhotoComplete r (removePhoto (analyzePhotoStart s).1)).1.resultHidden = false ∧
    (analyzePhotoComplete r (removePhoto (analyzePhotoStart s).1)).1.selectedFile = none := by
  obtain ⟨res, hmem, htb⟩ := analyzeTryBody_ok r (removePhoto (analyzePhotoStart s).1) h0 h1
  refine ⟨?_, by simp [removePhoto], ?_, ?_⟩
  · unfold analyzePhotoStart
    rw [hf]
  · unfold analyzePhotoComplete
    rw [htb]
    simp [analyzeFinally, displayResults]
  · unfold analyzePhotoComplete
    rw [htb]
    simp [analyzeFinally, displayResults, removePhoto]

/-- C4 witness: the amended interleaving at a concrete selected state and
`Math.random() = 0`. -/
theorem c4_removal_during_flight_witness :
    selectedState.selectedFile = some pngFile ∧ (0 : ℚ) ≤ 0 ∧ (0 : ℚ) < 1 ∧
    ((analyzePhotoStart selectedState).2 = true ∧
     (removePhoto (analyzePhotoStart selectedState).1).resultHidden = true ∧
     (analyzePhotoComplete 0 (removePhoto (analyzePhotoStart selectedState).1)).1.resultHidden
       = false ∧
     (analyzePhotoComplete 0 (removePhoto (analyzePhotoStart selectedState).1)).1.selectedFile
       = none) :=
  ⟨rfl, le_refl 0, by norm_num,
   c4_removal_during_flight selectedState pngFile 0 rfl (le_refl 0) (by norm_num)⟩

/-- C5: triggering the analysis with no selection is a no-op — the guard
returns before any work: the state is returned unchanged, no alert is
emitted, and no analysis is started. -/
theorem c5_no_selection_noop (s : UIState) (r : ℚ) (h : s.selectedFile = none) :
    analyzePhoto r s = (s, []) ∧ analyzePhotoStart s = (s, false) := by
  constructor
  · unfold analyzePhoto
    rw [h]
  · unfold analyzePhotoStart
    rw [h]

/-- C5 witness: the no-op at the initial state and `Math.random() = 0`. -/
theorem c5_no_selection_noop_witness :
    initialState.selectedFile = none ∧
    (analyzePhoto 0 initialState = (initialState, []) ∧
     analyzePhotoStart initialState = (initialState, false)) :=
  ⟨rfl, c5_no_selection_noop initialState 0 rfl⟩

/-- C6: for a file whose declared type starts with "image/", selection
emits no alert and, once the asynchronous decode completes
(`reader.onload`), the UI is Previewing: preview surface visible showing
the decoded data URL, upload surface hidden, analyze button enabled, any
prior result hidden, and the stored selection equal to the accepted
file. -/
theorem c6_accepted_file_previewing (s : UIState) (f : JsFile) (url : String)
    (h : jsStartsWith f.type "image/" = true) :
    (processFile f s).2 = [] ∧
    (readerOnload url (processFile f s).1).selectedFile = some f ∧
    (readerOnload url (processFile f s).1).previewImageSrc = url ∧
    (readerOnload url (processFile f s).1).previewHidden = false ∧
    (readerOnload url (processFile f s).1).uploadHidden = true ∧
    (readerOnload url (processFile f s).1).analyzeDisabled = false ∧
    (readerOnload url (processFile f s).1).resultHidden = true := by
  simp [processFile, readerOnload, showPreview, h]

/-- C6 witness: the accepted-file transition at a concrete PNG file, the
initial state and a concrete data URL. -/
theorem c6_accepted_file_previewing_witness :
    jsStartsWith pngFile.type "image/" = true ∧
    ((processFile pngFile initialState).2 = [] ∧
     (readerOnload "data:image/png;base64,AAAA"
        (processFile pngFile initialState).1).selectedFile = some pngFile ∧
     (readerOnload "data:image/png;base64,AAAA"
        (processFile pngFile initialState).1).previewImageSrc = "data:image/png;base64,AAAA" ∧
     (readerOnload "data:image/png;base64,AAAA"
        (processFile pngFile initialState).1).previewHidden = false ∧
     (readerOnload "data:image/png;base64,AAAA"
        (processFile pngFile initialState).1).uploadHidden = true ∧
     (readerOnload "data:image/png;base64,AAAA"
        (processFile pngFile initialState).1).analyzeDisabled = false ∧
     (readerOnload "data:image/png;base64,AAAA"
        (processFile pngFile initialState).1).resultHidden = true) :=
  ⟨by decide,
   c6_accepted_file_previewing initialState pngFile "data:image/png;base64,AAAA" (by decide)⟩

/-- C7: the placeholder analysis waits the fixed 1.5-second delay
(1500 ms), and for every genuine `Math.random()` value the computed index
is within bounds so the produced result is one of the three canned
results; neither step inspects the selected image (`getMockAnalysisResult`
takes no file at all). -/
theorem c7_placeholder_contract (r : ℚ) (h0 : 0 ≤ r) (h1 : r < 1) :
    simulateApiCallDelayMs = 1500 ∧
    mockResults.length = 3 ∧
    randomIndex r < mockResults.length ∧
    ∃ res, getMockAnalysisResult r = Except.ok res ∧ res ∈ mockResults :=
  ⟨rfl, rfl, randomIndex_lt_length r h0 h1, getMockAnalysisResult_ok r h0 h1⟩

/-- C7 witness: the placeholder contract at `Math.random() = 0`. -/
theorem c7_placeholder_contract_witness :
    (0 : ℚ) ≤ 0 ∧ (0 : ℚ) < 1 ∧
    (simulateApiCallDelayMs = 1500 ∧
     mockResults.length = 3 ∧
     randomIndex 0 < mockResults.length ∧
     ∃ res, getMockAnalysisResult 0 = Except.ok res ∧ res ∈ mockResults) :=
  ⟨le_refl 0, by norm_num, c7_placeholder_contract 0 (le_refl 0) (by norm_num)⟩

/-- C8: counterexample — rendering a result with every field absent
leaves the dish name and the calorie cell as EMPTY text (assigning JS
`undefined` to `textContent` converts to `null`, i.e. the empty string):
the calorie cell is not the em-dash placeholder and the dish-name cell is
blank rather than a fallback label, refuting the claim that absent fields
render as a fallback label / em-dash. -/
theorem c8_no_fallback_counterexample :
    (displayResults
        { name := none, calories := none, proteins := none, fats := none,
          carbs := none, info := none } initialState).dishNameText = "" ∧
    (displayResults
        { name := none, calories := none, proteins := none, fats := none,
          carbs := none, info := none } initialState).caloriesText = "" ∧
    ¬ (displayResults
        { name := none, calories := none, proteins := none, fats := none,
          carbs := none, info := none } initialState).caloriesText = "—" := by
  decide

/-- C8 (amended): `displayResults` applies no fallback of any kind — for
every result object, each absent field (dish name, calories, proteins,
fats, carbs) renders as empty text, never as the raw text "undefined" and
never as an em-dash placeholder or fallback label. -/
theorem c8_absent_fields_render_empty (s : UIState) (data : AnalysisResult)
    (hn : data.name = none) (hc : data.calories = none) (hp : data.proteins = none)
    (hf : data.fats = none) (hb : data.carbs = none) :
    (displayResults data s).dishNameText = "" ∧
    (displayResults data s).caloriesText = "" ∧
    (displayResults data s).proteinsText = "" ∧
    (displayResults data s).fatsText = "" ∧
    (displayResults data s).carbsText = "" ∧
    ¬ (displayResults data s).dishNameText = "undefined" ∧
    ¬ (displayResults data s).caloriesText = "undefined" := by
  simp [displayResults, textOfOptStr, textOfOptNat, hn, hc, hp, hf, hb]

/-- C8 witness: the empty rendering at a concrete all-absent result and
the initial state. -/
theorem c8_absent_fields_render_empty_witness :
    (AnalysisResult.name
        { name := none, calories := none, proteins := none, fats := none,
          carbs := none, info := none } = none) ∧
    ((displayResults
        { name := none, calories := none, proteins := none, fats := none,
          carbs := none, info := none } initialState).dishNameText = "" ∧
     (displayResults
        { name := none, calories := none, proteins := none, fats := none,
          carbs := none, info := none } initialState).caloriesText = "" ∧
     (displayResults
        { name := none, calories := none, proteins := none, fats := none,
          carbs := none, info := none } initialState).proteinsText = "" ∧
     (displayResults
        { name := none, calories := none, proteins := none, fats := none,
          carbs := none, info := none } initialState).fatsText = "" ∧
     (displayResults
        { name := none, calories := none, proteins := none, fats := none,
          carbs := none, info := none } initialState).carbsText = "" ∧
     ¬ (displayResults
        { name := none, calories := none, proteins := none, fats := none,
          carbs := none, info := none } initialState).dishNameText = "undefined" ∧
     ¬ (displayResults
        { name := none, calories := none, proteins := none, fats := none,
          carbs := none, info := none } initialState).caloriesText = "undefined") :=
  ⟨rfl, c8_absent_fields_render_empty initialState
    { name := none, calories := none, proteins := none, fats := none,
      carbs := none, info := none } rfl rfl rfl rfl rfl⟩

/-- C9: (modelled from the spec — the network variant is absent from
`src/`) the submission for a selected file is a single POST to
`{base-url}/analyze` whose multipart body has exactly one part, named
`image`, carrying the file with its bytes and declared content type; and
on an HTTP success status whose body has a true `success` indicator the
handler returns the nested result payload for rendering. -/
theorem c9_network_submission (baseUrl : String) (f : JsFile) (resp : ApiResponse)
    (res : NetworkResult) (h1 : resp.httpOk = true) (h2 : resp.success = true)
    (h3 : resp.data = some res) :
    (sendToApiRequest baseUrl f).method = "POST" ∧
    (sendToApiRequest baseUrl f).url = baseUrl ++ "/analyze" ∧
    (sendToApiRequest baseUrl f).formParts = [("image", f)] ∧
    sendToApiHandleResponse resp = Except.ok res := by
  refine ⟨rfl, rfl, rfl, ?_⟩
  simp [sendToApiHandleResponse, h1, h2, h3]

/-- C9 witness: the submission contract at a concrete base URL, file and
successful response. -/
theorem c9_network_submission_witness :
    (ApiResponse.httpOk
        { httpOk := true, success := true,
          data := some { product_name := some "Salad", calories := some 180,
                         proteins := some 5, fats := some 14, carbs := some 9,
                         weight := none, confidence := none, notes := none },
          message := none, error := none } = true) ∧
    ((sendToApiRequest "http://localhost:8000" pngFile).method = "POST" ∧
     (sendToApiRequest "http://localhost:8000" pngFile).url
        = "http://localhost:8000" ++ "/analyze" ∧
     (sendToApiRequest "http://localhost:8000" pngFile).formParts = [("image", pngFile)] ∧
     sendToApiHandleResponse
        { httpOk := true, success := true,
          data := some { product_name := some "Salad", calories := some 180,
                         proteins := some 5, fats := some 14, carbs := some 9,
                         weight := none, confidence := none, notes := none },
          message := none, error := none }
        = Except.ok { product_name := some "Salad", calories := some 180,
                      proteins := some 5, fats := some 14, carbs := some 9,
                      weight := none, confidence := none, notes := none }) :=
  ⟨rfl, c9_network_submission "http://localhost:8000" pngFile
    { httpOk := true, success := true,
      data := some { product_name := some "Salad", calories := some 180,
                     proteins := some 5, fats := some 14, carbs := some 9,
                     weight := none, confidence := none, notes := none },
      message := none, error := none }
    { product_name := some "Salad", calories := some 180,
      proteins := some 5, fats := some 14, carbs := some 9,
      weight := none, confidence := none, notes := none } rfl rfl rfl⟩

/-- C10: in the placeholder variant the error branch is unreachable — the
simulated delay always resolves and the mock selection and rendering never
throw — so every analysis started on a selected state (with a genuine
random value) emits no alert and ends in ShowingResult: result surface
revealed, loader hidden, analyze button re-enabled. -/
theorem c10_error_branch_unreachable (s : UIState) (f : JsFile) (r : ℚ)
    (hf : s.selectedFile = some f) (h0 : 0 ≤ r) (h1 : r < 1) :
    (analyzePhoto r s).2 = [] ∧
    (analyzePhoto r s).1.resultHidden = false ∧
    (analyzePhoto r s).1.loaderHidden = true ∧
    (analyzePhoto r s).1.analyzeDisabled = false := by
  obtain ⟨res, hmem, htb⟩ := analyzeTryBody_ok r
    { s with loaderHidden := false, analyzeDisabled := true, resultHidden := true } h0 h1
  rw [hf] at htb
  simp only [analyzePhoto, hf]
  simp only [analyzePhotoComplete, htb]
  simp [analyzeFinally, displayResults]

/-- C10 witness: the guaranteed success at a concrete selected state and
`Math.random() = 0`. -/
theorem c10_error_branch_unreachable_witness :
    selectedState.selectedFile = some pngFile ∧ (0 : ℚ) ≤ 0 ∧ (0 : ℚ) < 1 ∧
    ((analyzePhoto 0 selectedState).2 = [] ∧
     (analyzePhoto 0 selectedState).1.resultHidden = false ∧
     (analyzePhoto 0 selectedState).1.loaderHidden = true ∧
     (analyzePhoto 0 selectedState).1.analyzeDisabled = false) :=
  ⟨rfl, le_refl 0, by norm_num,
   c10_error_branch_unreachable selectedState pngFile 0 rfl (le_refl 0) (by norm_num)⟩
